import Mathlib

/-!
Shallow embedding of the ScopeDB Python SDK statement-lifecycle and
result-decoding core (src/python/src/scopedb/{models,statement,result}.py).

Modelling conventions:
* Python dictionaries coming off the wire are modelled as structures of
  `Option` fields; `none` stands for an absent key.  Python truthiness of a
  string value (absent, `None` or `""` are all falsy) is captured by
  `truthyStr`.
* Python exceptions raised during an operation are modelled by `Except` /
  an explicit error component of the result; the error constructors carry
  the payload the corresponding Python exception message carries.
* Sleep durations are in integer milliseconds (the Python floats 0.005 .. 1.0
  are all exact binary doublings of the rounded 0.005, so comparisons and
  `min` behave identically to the rational model scaled by 1000).
* Python `float` cell values are kept as their validated source text: the SDK
  never computes with them, it only parses and stores them.
* Transport calls are counted explicitly so that claims about "no network
  call" are statements about the model.
-/

namespace ScopeDB

/-- models.StatementStatus -/
inductive StatementStatus where
  | pending
  | running
  | finished
  | failed
  | cancelled
deriving DecidableEq

/-- models.StatementStatus.is_finished -/
def StatementStatus.is_finished (s : StatementStatus) : Bool :=
  match s with
  | .finished => true
  | _ => false

/-- models.StatementStatus.is_terminated -/
def StatementStatus.is_terminated (s : StatementStatus) : Bool :=
  match s with
  | .finished => true
  | .failed => true
  | .cancelled => true
  | _ => false

/-- models.DataType -/
inductive DataType where
  | string
  | int
  | uint
  | float
  | boolean
  | timestamp
  | interval
  | array
  | object
  | any
deriving DecidableEq

/-- DataType(dtype_str): the enum constructor, `none` when the string is not a
member (Python raises ValueError there). -/
def DataType.ofString : String → Option DataType
  | "string" => some .string
  | "int" => some .int
  | "uint" => some .uint
  | "float" => some .float
  | "boolean" => some .boolean
  | "timestamp" => some .timestamp
  | "interval" => some .interval
  | "array" => some .array
  | "object" => some .object
  | "any" => some .any
  | _ => none

/-- Python truthiness of an optional string: absent and `""` are falsy. -/
def truthyStr : Option String → Option String
  | some s => if s = "" then none else some s
  | none => none

/-- Errors raised by the statement/result core (all ScopeDBError / ValueError
in the Python source); constructors carry the exception payload. -/
inductive SDKError where
  | statementFailed (message : String)
  | terminatedWithoutResult (status : StatementStatus)
  | valueError (message : String)
deriving DecidableEq

/-! ### Python int() / float() text parsing (result._convert_value) -/

def digitVal (c : Char) : Nat := c.toNat - '0'.toNat

def digitsToNat (cs : List Char) : Nat :=
  cs.foldl (fun a c => 10 * a + digitVal c) 0

def stripWs (cs : List Char) : List Char :=
  ((cs.dropWhile Char.isWhitespace).reverse.dropWhile Char.isWhitespace).reverse

def noAdjacentUnderscores : List Char → Bool
  | [] => true
  | [_] => true
  | c1 :: c2 :: rest =>
    if c1 = '_' && c2 = '_' then false else noAdjacentUnderscores (c2 :: rest)

/-- A valid Python digit group: nonempty digits, single underscores allowed
strictly between digits; returns its numeric value. -/
def pythonIntDigits (cs : List Char) : Option Nat :=
  match cs with
  | [] => none
  | c :: _ =>
    if c.isDigit
        && ((cs.getLast?.map Char.isDigit).getD false)
        && cs.all (fun x => x.isDigit || x = '_')
        && noAdjacentUnderscores cs
    then some (digitsToNat (cs.filter Char.isDigit))
    else none

/-- Python int(v) on a string: optional surrounding whitespace, optional sign,
digit group with underscores. -/
def pythonInt (s : String) : Option Int :=
  match stripWs s.toList with
  | '+' :: rest => (pythonIntDigits rest).map Int.ofNat
  | '-' :: rest => (pythonIntDigits rest).map (fun n => -(Int.ofNat n))
  | cs => (pythonIntDigits cs).map Int.ofNat

def takeDigitGroup (cs : List Char) : List Char × List Char :=
  let g := cs.takeWhile (fun c => c.isDigit || c = '_')
  (g, cs.drop g.length)

/-- Python float(v) acceptance on a string (the value itself is kept as text,
see module comment): optional sign, inf/infinity/nan, or decimal mantissa
with optional fraction and exponent, underscores per the int rules. -/
def pythonFloatValid (s : String) : Bool :=
  let cs0 := stripWs s.toList
  let cs := match cs0 with
    | '+' :: r => r
    | '-' :: r => r
    | r => r
  let lower := cs.map Char.toLower
  if lower = "inf".toList || lower = "infinity".toList || lower = "nan".toList then
    true
  else
    let (g1, r1) := takeDigitGroup cs
    let (hasDot, r2) := match r1 with
      | '.' :: r => (true, r)
      | r => (false, r)
    let (g2, r3) := if hasDot then takeDigitGroup r2 else ([], r2)
    let mantOk :=
      if hasDot then
        (g1.isEmpty || (pythonIntDigits g1).isSome)
          && (g2.isEmpty || (pythonIntDigits g2).isSome)
          && (!g1.isEmpty || !g2.isEmpty)
      else
        (pythonIntDigits g1).isSome
    let expOk := match r3 with
      | [] => true
      | c :: r4 =>
        if c = 'e' || c = 'E' then
          let r5 := match r4 with
            | '+' :: r => r
            | '-' :: r => r
            | r => r
          (pythonIntDigits r5).isSome
        else false
    mantOk && expOk

/-! ### datetime.fromisoformat (Python >= 3.11) on the RFC3339 fragment

The SDK calls `datetime.fromisoformat(v.replace('Z', '+00:00'))`.  We model
the CPython >= 3.11 parser on the RFC3339 wire fragment the service emits:
`YYYY-MM-DD[*HH[:MM[:SS[.digits]]][(+|-)HH:MM]]` where `*` is any single
separator character, fractional seconds of any length are accepted with
digits beyond microseconds truncated, and calendar/date-time components are
range checked.  ISO-8601 forms outside this fragment (colon-free times,
offset seconds) are not modelled. -/

structure Timestamp where
  year : Nat
  month : Nat
  day : Nat
  hour : Nat
  minute : Nat
  second : Nat
  microsecond : Nat
  tzOffsetMinutes : Option Int
deriving DecidableEq

def isLeapYear (y : Nat) : Bool :=
  (y % 4 = 0 && y % 100 ≠ 0) || y % 400 = 0

def daysInMonth (y m : Nat) : Nat :=
  if m = 2 then (if isLeapYear y then 29 else 28)
  else if m = 4 || m = 6 || m = 9 || m = 11 then 30
  else 31

def parseTwoDigits : List Char → Option (Nat × List Char)
  | c1 :: c2 :: rest =>
    if c1.isDigit && c2.isDigit then some (10 * digitVal c1 + digitVal c2, rest)
    else none
  | _ => none

/-- Fractional seconds: a dot or comma then one or more digits; digits beyond
the sixth are truncated (microsecond precision). -/
def parseFraction : List Char → Option (Nat × List Char)
  | c :: rest =>
    if c = '.' || c = ',' then
      let ds := rest.takeWhile Char.isDigit
      if ds.isEmpty then none
      else
        let d6 := ds.take 6
        some (digitsToNat d6 * 10 ^ (6 - d6.length), rest.drop ds.length)
    else none
  | [] => none

/-- UTC offset `(+|-)HH:MM` running to the end of the string; an empty
remainder means no offset. -/
def parseTzOffset : List Char → Option (Option Int)
  | [] => some none
  | c :: rest =>
    if c = '+' || c = '-' then
      match parseTwoDigits rest with
      | some (hh, ':' :: rest2) =>
        match parseTwoDigits rest2 with
        | some (mm, []) =>
          if hh ≤ 23 && mm ≤ 59 then
            let total : Int := (hh * 60 + mm : Nat)
            some (some (if c = '-' then -total else total))
          else none
        | _ => none
      | _ => none
    else none

/-- Time of day `HH[:MM[:SS[.frac]]]` followed by an optional offset. -/
def parseTimeOfDay (cs : List Char) : Option (Nat × Nat × Nat × Nat × Option Int) := do
  let (hour, r1) ← parseTwoDigits cs
  if hour ≥ 24 then none
  else
    match r1 with
    | ':' :: r2 => do
      let (minute, r3) ← parseTwoDigits r2
      if minute ≥ 60 then none
      else
        match r3 with
        | ':' :: r4 => do
          let (second, r5) ← parseTwoDigits r4
          if second ≥ 60 then none
          else
            match parseFraction r5 with
            | some (us, r6) => do
              let tz ← parseTzOffset r6
              some (hour, minute, second, us, tz)
            | none => do
              let tz ← parseTzOffset r5
              some (hour, minute, second, 0, tz)
        | _ => do
          let tz ← parseTzOffset r3
          some (hour, minute, 0, 0, tz)
    | _ => do
      let tz ← parseTzOffset r1
      some (hour, 0, 0, 0, tz)

/-- datetime.fromisoformat (restricted per the section comment). -/
def pythonFromisoformat (s : String) : Option Timestamp :=
  match s.toList with
  | y1 :: y2 :: y3 :: y4 :: '-' :: m1 :: m2 :: '-' :: d1 :: d2 :: rest =>
    if y1.isDigit && y2.isDigit && y3.isDigit && y4.isDigit
        && m1.isDigit && m2.isDigit && d1.isDigit && d2.isDigit then
      let year := digitsToNat [y1, y2, y3, y4]
      let month := 10 * digitVal m1 + digitVal m2
      let day := 10 * digitVal d1 + digitVal d2
      if 1 ≤ year && 1 ≤ month && month ≤ 12 && 1 ≤ day && day ≤ daysInMonth year month then
        match rest with
        | [] => some ⟨year, month, day, 0, 0, 0, 0, none⟩
        | _sep :: timeRest =>
          match parseTimeOfDay timeRest with
          | some (hh, mm, ss, us, tz) => some ⟨year, month, day, hh, mm, ss, us, tz⟩
          | none => none
      else none
    else none
  | _ => none

/-- v.replace('Z', '+00:00') on the character list (str.replace with a
one-character pattern replaces every occurrence). -/
def replaceZChars : List Char → List Char
  | [] => []
  | c :: rest =>
    if c = 'Z' then '+' :: '0' :: '0' :: ':' :: '0' :: '0' :: replaceZChars rest
    else c :: replaceZChars rest

/-- v.replace('Z', '+00:00') -/
def pyReplaceZ (s : String) : String := ⟨replaceZChars s.toList⟩

/-! ### Cell values and type-directed conversion (result.ResultSet._convert_value) -/

inductive Value where
  | vnull
  | vstr (s : String)
  | vint (n : Int)
  | vfloat (text : String)
  | vbool (b : Bool)
  | vtimestamp (t : Timestamp)
deriving DecidableEq

/-- result.ResultSet._convert_value: type-directed conversion of one wire
cell (a nullable string). -/
def convert_value (v : Option String) (typ : DataType) : Except SDKError Value :=
  match v with
  | none => .ok .vnull
  | some v =>
    match typ with
    | .string => .ok (.vstr v)
    | .int =>
      match pythonInt v with
      | some n => .ok (.vint n)
      | none => .error (.valueError ("invalid literal for int() with base 10: " ++ v))
    | .uint =>
      match pythonInt v with
      | some n => .ok (.vint n)
      | none => .error (.valueError ("invalid literal for int() with base 10: " ++ v))
    | .float =>
      if pythonFloatValid v then .ok (.vfloat v)
      else .error (.valueError ("could not convert string to float: " ++ v))
    | .boolean => .ok (.vbool (v.toLower = "true"))
    | .timestamp =>
      match pythonFromisoformat (pyReplaceZ v) with
      | some t => .ok (.vtimestamp t)
      | none => .ok (.vstr v)
    | .interval => .ok (.vstr v)
    | .array => .ok (.vstr v)
    | .object => .ok (.vstr v)
    | .any => .ok (.vstr v)

/-! ### Wire payloads (JSON dictionaries as Option-field structures) -/

/-- One entry of metadata.fields as received on the wire; only the keys the
decoder probes are modelled. -/
structure RawField where
  name : Option String
  data_Type : Option String
  data_type : Option String
  dataType : Option String
deriving DecidableEq

/-- result_set.metadata on the wire. num_rows is optional (defaults to 0). -/
structure RawMetadata where
  fields : Option (List RawField)
  num_rows : Option Nat
deriving DecidableEq

/-- result_set on the wire; `none` on an outer field models an absent key. -/
structure RawResultSet where
  metadata : Option RawMetadata
  format : Option String
  rows : Option (List (List (Option String)))
deriving DecidableEq

/-- models.StatementProgress (floats modelled as rationals; never computed
with, only carried). -/
structure StatementProgress where
  total_percentage : Rat
  nanos_from_submitted : Int
  nanos_from_started : Int
  total_stages : Int
  total_partitions : Int
  total_rows : Int
  total_compressed_bytes : Int
  total_uncompressed_bytes : Int
  scanned_stages : Int
  scanned_partitions : Int
  scanned_rows : Int
  scanned_compressed_bytes : Int
  scanned_uncompressed_bytes : Int
deriving DecidableEq

/-- A statement submission/poll response body.  `status` is
`StatementStatus(status_str) if status_str else None`: `none` covers an
absent or empty status string.  `result_set = none` covers an absent, null or
empty result_set object (all falsy in the source). -/
structure Response where
  status : Option StatementStatus
  message : Option String
  progress : Option StatementProgress
  result_set : Option RawResultSet
deriving DecidableEq

/-- Cancel response body: status plus optional message (a strict subset of
the full response shape); `message = some m` models the key being present. -/
structure CancelResponse where
  status : StatementStatus
  message : Option String
deriving DecidableEq

/-! ### models.FieldSchema / models.ResultSetMetadata / result.ResultSet -/

structure FieldSchema where
  name : String
  type : DataType
deriving DecidableEq

structure ResultSetMetadata where
  fields : List FieldSchema
  num_rows : Nat
deriving DecidableEq

/-- result.ResultSet.  `parsed_rows` is the memoization cell
(`self._parsed_rows`, initially None). -/
structure ResultSet where
  metadata : ResultSetMetadata
  format : String
  rows_raw : List (List (Option String))
  parsed_rows : Option (List (List Value))
deriving DecidableEq

def ResultSet.total_rows (rs : ResultSet) : Nat := rs.metadata.num_rows

def ResultSet.schema (rs : ResultSet) : List FieldSchema := rs.metadata.fields

/-- One row's conversion loop (`for i, val_str in enumerate(row)`), stopping
at the first failing cell; also counts the _convert_value calls made. -/
def decodeRowC (schema : List FieldSchema) (row : List (Option String)) :
    Except SDKError (List Value) × Nat :=
  match row, schema with
  | [], _ => (.ok [], 0)
  | _ :: _, [] => (.ok [], 0)
  | v :: vs, f :: fs =>
    match convert_value v f.type with
    | .error e => (.error e, 1)
    | .ok val =>
      match decodeRowC fs vs with
      | (.ok vals, n) => (.ok (val :: vals), n + 1)
      | (.error e, n) => (.error e, n + 1)

/-- The row loop of to_values: each row's length is checked against the
schema before its cells are converted; the first failure aborts.  The second
component counts _convert_value calls. -/
def decodeRowsC (schema : List FieldSchema) :
    List (List (Option String)) → Except SDKError (List (List Value)) × Nat
  | [] => (.ok [], 0)
  | row :: rest =>
    if row.length = schema.length then
      match decodeRowC schema row with
      | (.ok vals, n) =>
        match decodeRowsC schema rest with
        | (.ok valss, m) => (.ok (vals :: valss), n + m)
        | (.error e, m) => (.error e, n + m)
      | (.error e, n) => (.error e, n)
    else (.error (.valueError "Schema length does not match record length"), 0)

/-- result.ResultSet.to_values: memoized full decode.  Returns the decode
outcome, the (possibly updated) ResultSet, and the number of _convert_value
calls performed by this call. -/
def ResultSet.to_values (rs : ResultSet) :
    Except SDKError (List (List Value)) × ResultSet × Nat :=
  match rs.parsed_rows with
  | some v => (.ok v, rs, 0)
  | none =>
    if rs.format = "json" then
      match decodeRowsC rs.metadata.fields rs.rows_raw with
      | (.ok v, n) => (.ok v, { rs with parsed_rows := some v }, n)
      | (.error e, n) => (.error e, rs, n)
    else
      (.error (.valueError ("Unexpected result set format: " ++ rs.format)), rs, 0)

/-! ### statement.StatementHandle -/

structure StatementHandle where
  id : String
  format : String
  last_response : Option Response
deriving DecidableEq

/-- StatementHandle.status -/
def StatementHandle.status (h : StatementHandle) : Option StatementStatus :=
  match h.last_response with
  | none => none
  | some r => r.status

/-- StatementHandle.progress -/
def StatementHandle.progress (h : StatementHandle) : Option StatementProgress :=
  match h.last_response with
  | none => none
  | some r => r.progress

/-- The guard `self.status and self.status.is_terminated()`. -/
def StatementHandle.terminalStatus (h : StatementHandle) : Bool :=
  match h.status with
  | some s => s.is_terminated
  | none => false

/-- The dtype probe `f.get("data_Type") or f.get("data_type") or f.get("dataType")`:
the first truthy candidate wins. -/
def probeDataType (f : RawField) : Option String :=
  match truthyStr f.data_Type with
  | some d => some d
  | none =>
    match truthyStr f.data_type with
    | some d => some d
    | none => truthyStr f.dataType

/-- The field loop of StatementHandle.result_set: entries whose name or
resolved dtype string is untruthy are skipped; a truthy dtype string that is
not a DataType member raises (Python ValueError in the enum constructor). -/
def buildFields : List RawField → Except SDKError (List FieldSchema)
  | [] => .ok []
  | f :: rest =>
    match truthyStr f.name, probeDataType f with
    | some n, some d =>
      match DataType.ofString d with
      | some dt =>
        match buildFields rest with
        | .ok fields => .ok (⟨n, dt⟩ :: fields)
        | .error e => .error e
      | none => .error (.valueError (d ++ " is not a valid DataType"))
    | some _, none => buildFields rest
    | none, _ => buildFields rest

/-- metadata.fields of the wire payload with the source's dict defaults
applied (`rs_data.get("metadata", {})`, `meta_data.get("fields", [])`). -/
def rawFields (rsData : RawResultSet) : List RawField :=
  ((rsData.metadata.map (·.fields)).getD none).getD []

/-- StatementHandle.result_set: build a ResultSet from the snapshot, `none`
when there is no snapshot or no truthy result_set payload; `.error` models
the ValueError escapes (bad dtype string, bad format string). -/
def StatementHandle.result_set (h : StatementHandle) :
    Except SDKError (Option ResultSet) :=
  match h.last_response with
  | none => .ok none
  | some r =>
    match r.result_set with
    | none => .ok none
    | some rsData =>
      match buildFields (rawFields rsData) with
      | .error e => .error e
      | .ok fields =>
        let numRows := ((rsData.metadata.map (·.num_rows)).getD none).getD 0
        let fmt := rsData.format.getD h.format
        if fmt = "json" then
          .ok (some ⟨⟨fields, numRows⟩, fmt, rsData.rows.getD [], none⟩)
        else .error (.valueError (fmt ++ " is not a valid ResultFormat"))

/-- StatementHandle.fetch_once as a transition on the handle, fed the
response the transport would return; the Nat counts transport calls. -/
def fetch_once (h : StatementHandle) (resp : Response) :
    StatementHandle × Option SDKError × Nat :=
  if h.terminalStatus then (h, none, 0)
  else
    let h2 := { h with last_response := some resp }
    match truthyStr resp.message with
    | some m => (h2, some (.statementFailed m), 1)
    | none => (h2, none, 1)

/-- The non-short-circuit arm of cancel: the partial snapshot update
(`self._last_response["status"] = new_status`, and the message key when the
cancel response carries one). -/
def cancelNonTerminal (h : StatementHandle) (resp : CancelResponse) :
    StatementHandle × StatementStatus × Nat :=
  let h2 :=
    match h.last_response with
    | some r =>
      let msg2 :=
        match resp.message with
        | some m => some m
        | none => r.message
      { h with last_response := some { r with status := some resp.status, message := msg2 } }
    | none => h
  (h2, resp.status, 1)

/-- StatementHandle.cancel: terminal snapshots short-circuit; otherwise the
cancel response's status (and message, when the key is present) is applied
onto the existing snapshot.  The Nat counts transport calls. -/
def cancel (h : StatementHandle) (resp : CancelResponse) :
    StatementHandle × StatementStatus × Nat :=
  match h.status with
  | some s =>
    if s.is_terminated then (h, s, 0)
    else cancelNonTerminal h resp
  | none => cancelNonTerminal h resp

/-! ### StatementHandle.fetch (the polling loop) -/

/-- The tick update at the bottom of the loop:
`if tick < max_tick: tick = min(tick * 2, max_tick)` (milliseconds). -/
def tickNext (tick : Nat) : Nat :=
  if tick < 1000 then min (2 * tick) 1000 else tick

/-- The value of `tick` at the start of the n-th loop iteration. -/
def tickSeq : Nat → Nat
  | 0 => 5
  | n + 1 => tickNext (tickSeq n)

inductive FetchResult where
  | ok (rs : ResultSet)
  | err (e : SDKError)
  | outOfFuel
deriving DecidableEq

structure FetchTrace where
  result : FetchResult
  sleeps : List Nat
  polls : Nat
  handle : StatementHandle
deriving DecidableEq

/-- The inspect-before-poll step at the top of the fetch loop: resolve from
the current snapshot when it is conclusive (`some` outcome), else `none`
(fall through to sleep + poll). -/
def inspectSnapshot (h : StatementHandle) : Option FetchResult :=
  match h.last_response with
  | none => none
  | some r =>
    match h.result_set with
    | .error e => some (.err e)
    | .ok (some rs) => some (.ok rs)
    | .ok none =>
      match truthyStr r.message with
      | some m => some (.err (.statementFailed m))
      | none =>
        if h.terminalStatus then
          match h.status with
          | some s => some (.err (.terminatedWithoutResult s))
          | none => none
        else none

/-- The body of StatementHandle.fetch.  `transport k` is the response of the
(k+1)-th poll; `fuel` bounds the number of iterations (the source loop is
unbounded); `sleeps` records every sleep interval in order; `polls` counts
transport calls. -/
def fetchLoop (transport : Nat → Response) :
    Nat → Nat → StatementHandle → List Nat → Nat → FetchTrace
  | 0, _, h, sleeps, polls => ⟨.outOfFuel, sleeps, polls, h⟩
  | fuel + 1, tick, h, sleeps, polls =>
    match inspectSnapshot h with
    | some res => ⟨res, sleeps, polls, h⟩
    | none =>
      let sleeps2 := sleeps ++ [tick]
      let tick2 := tickNext tick
      match fetch_once h (transport polls) with
      | (h2, some e, calls) => ⟨.err e, sleeps2, polls + calls, h2⟩
      | (h2, none, calls) => fetchLoop transport fuel tick2 h2 sleeps2 (polls + calls)

/-- StatementHandle.fetch: the loop started with tick = 5 ms. -/
def fetch (transport : Nat → Response) (fuel : Nat) (h : StatementHandle) :
    FetchTrace :=
  fetchLoop transport fuel 5 h [] 0

/-- A poll response that lets the loop keep polling: no terminal status, no
truthy message, no result_set payload. -/
def inconclusive (r : Response) : Bool :=
  (match r.status with
   | some s => !s.is_terminated
   | none => true)
  && (truthyStr r.message).isNone
  && r.result_set.isNone

/-! ### Lemmas about the backoff tick sequence -/

lemma tickSeq_le_cap (n : Nat) : tickSeq n ≤ 1000 := by
  induction n with
  | zero => decide
  | succ n ih =>
    simp only [tickSeq, tickNext]
    split <;> omega

lemma tickSeq_ge_five (n : Nat) : 5 ≤ tickSeq n := by
  induction n with
  | zero => decide
  | succ n ih =>
    simp only [tickSeq, tickNext]
    split <;> omega

lemma tickSeq_succ_eq (n : Nat) : tickSeq (n + 1) = min (2 * tickSeq n) 1000 := by
  have h1 := tickSeq_le_cap n
  have h2 := tickSeq_ge_five n
  simp only [tickSeq, tickNext]
  split <;> omega

lemma h_inconclusive_not_terminal (h : StatementHandle) (r : Response)
    (h1 : h.last_response = some r) (h2 : inconclusive r = true) :
    h.terminalStatus = false := by
  simp only [StatementHandle.terminalStatus, StatementHandle.status, h1]
  simp only [inconclusive, Bool.and_eq_true] at h2
  obtain ⟨⟨hs, _⟩, _⟩ := h2
  cases hr : r.status with
  | none => rfl
  | some s =>
    rw [hr] at hs
    simp only [Bool.not_eq_true', Bool.not_eq_eq_eq_not] at hs
    simpa using hs

lemma inspectSnapshot_of_inconclusive (h : StatementHandle) :
    (h.last_response = none ∨ ∃ r, h.last_response = some r ∧ inconclusive r = true) →
    inspectSnapshot h = none := by
  intro hcase
  rcases hcase with hnone | ⟨r, hr, hc⟩
  · simp [inspectSnapshot, hnone]
  · have hterm := h_inconclusive_not_terminal h r hr hc
    simp only [inconclusive, Bool.and_eq_true, Option.isNone_iff_eq_none] at hc
    obtain ⟨⟨_, hmsg⟩, hrs⟩ := hc
    simp [inspectSnapshot, hr, StatementHandle.result_set, hrs, hmsg, hterm]

lemma fetch_once_of_inconclusive (h : StatementHandle) (resp : Response)
    (hterm : h.terminalStatus = false)
    (hmsg : truthyStr resp.message = none) :
    fetch_once h resp = ({ h with last_response := some resp }, none, 1) := by
  simp [fetch_once, hterm, hmsg]

/-- The tick and sleep bookkeeping of the fetch loop, for an arbitrarily
long run of inconclusive responses: each iteration records `tickSeq` of its
index and the loop only runs out of fuel. -/
lemma fetchLoop_sleeps (transport : Nat → Response)
    (ht : ∀ k, inconclusive (transport k) = true) :
    ∀ (fuel k : Nat) (h : StatementHandle) (sleeps : List Nat) (polls : Nat),
      (h.last_response = none ∨ ∃ j, h.last_response = some (transport j)) →
      (fetchLoop transport fuel (tickSeq k) h sleeps polls).sleeps =
        sleeps ++ (List.range fuel).map (fun i => tickSeq (k + i)) := by
  intro fuel
  induction fuel with
  | zero => intro k h sleeps polls _; simp [fetchLoop]
  | succ fuel ih =>
    intro k h sleeps polls hinv
    have hins : inspectSnapshot h = none := by
      apply inspectSnapshot_of_inconclusive
      rcases hinv with hnone | ⟨j, hj⟩
      · exact Or.inl hnone
      · exact Or.inr ⟨transport j, hj, ht j⟩
    have hterm : h.terminalStatus = false := by
      rcases hinv with hnone | ⟨j, hj⟩
      · simp [StatementHandle.terminalStatus, StatementHandle.status, hnone]
      · exact h_inconclusive_not_terminal h (transport j) hj (ht j)
    have hmsg : truthyStr (transport polls).message = none := by
      have := ht polls
      simp only [inconclusive, Bool.and_eq_true, Option.isNone_iff_eq_none] at this
      exact this.1.2
    simp only [fetchLoop, hins, fetch_once_of_inconclusive h (transport polls) hterm hmsg]
    have hnext : tickNext (tickSeq k) = tickSeq (k + 1) := rfl
    rw [hnext, ih (k + 1) _ (sleeps ++ [tickSeq k]) (polls + 1) (Or.inr ⟨polls, rfl⟩)]
    rw [List.append_assoc]
    congr 1
    rw [List.range_succ_eq_map, List.map_cons, List.map_map]
    simp only [List.singleton_append, Nat.add_zero]
    congr 1
    exact List.map_congr_left fun i _ => by
      simp only [Function.comp_apply]
      congr 1
      omega

/-- C1: In fetch, the sequence of sleep intervals between polls starts at
5 ms, is non-decreasing, doubles (capped at 1000 ms) after each unsuccessful
poll, never exceeds 1000 ms, and once the cap is reached every subsequent
interval is exactly 1000 ms; and for an arbitrarily long run of non-terminal
poll responses the intervals slept by fetch are exactly that sequence. -/
theorem c1_backoff :
    tickSeq 0 = 5
    ∧ (∀ n, tickSeq n ≤ tickSeq (n + 1))
    ∧ (∀ n, tickSeq (n + 1) = min (2 * tickSeq n) 1000)
    ∧ (∀ n, 5 ≤ tickSeq n ∧ tickSeq n ≤ 1000)
    ∧ (∀ n m, tickSeq n = 1000 → n ≤ m → tickSeq m = 1000)
    ∧ (∀ (transport : Nat → Response) (fuel : Nat) (h : StatementHandle),
        h.last_response = none →
        (∀ k, inconclusive (transport k) = true) →
        (fetch transport fuel h).sleeps = (List.range fuel).map tickSeq) := by
  refine ⟨rfl, ?_, tickSeq_succ_eq, ?_, ?_, ?_⟩
  · intro n
    rw [tickSeq_succ_eq]
    have := tickSeq_le_cap n
    omega
  · exact fun n => ⟨tickSeq_ge_five n, tickSeq_le_cap n⟩
  · intro n m h1 h2
    induction m, h2 using Nat.le_induction with
    | base => exact h1
    | succ m _ ih => rw [tickSeq_succ_eq, ih]; decide
  · intro transport fuel h hresp ht
    have := fetchLoop_sleeps transport ht fuel 0 h [] 0 (Or.inl hresp)
    simpa [fetch, tickSeq] using this

/-- A response with status running and nothing else, used to exercise the
polling loop. -/
def runningResponse : Response := ⟨some .running, none, none, none⟩

/-- A handle that has not yet observed any response. -/
def freshHandle : StatementHandle := ⟨"stmt-1", "json", none⟩

theorem c1_backoff_witness :
    (fetch (fun _ => runningResponse) 10 freshHandle).sleeps =
      [5, 10, 20, 40, 80, 160, 320, 640, 1000, 1000] := by
  have h := c1_backoff.2.2.2.2.2 (fun _ => runningResponse) 10 freshHandle rfl
    (fun _ => rfl)
  exact h.trans (by decide)

/-! ### Terminal snapshots -/

lemma terminal_last_response (h : StatementHandle) (hterm : h.terminalStatus = true) :
    ∃ r s, h.last_response = some r ∧ r.status = some s ∧ s.is_terminated = true := by
  obtain ⟨r, hr⟩ : ∃ r, h.last_response = some r := by
    cases hx : h.last_response with
    | none => simp [StatementHandle.terminalStatus, StatementHandle.status, hx] at hterm
    | some r => exact ⟨r, rfl⟩
  obtain ⟨s, hs⟩ : ∃ s, r.status = some s := by
    cases hx : r.status with
    | none => simp [StatementHandle.terminalStatus, StatementHandle.status, hr, hx] at hterm
    | some s => exact ⟨s, rfl⟩
  refine ⟨r, s, hr, hs, ?_⟩
  simpa [StatementHandle.terminalStatus, StatementHandle.status, hr, hs] using hterm

lemma inspectSnapshot_terminal (h : StatementHandle) (hterm : h.terminalStatus = true) :
    ∃ res, inspectSnapshot h = some res := by
  obtain ⟨r, s, hr, hs, _⟩ := terminal_last_response h hterm
  cases hrs : h.result_set with
  | error e => exact ⟨.err e, by simp [inspectSnapshot, hr, hrs]⟩
  | ok o =>
    cases o with
    | some rs => exact ⟨.ok rs, by simp [inspectSnapshot, hr, hrs]⟩
    | none =>
      cases hm : truthyStr r.message with
      | some m =>
        exact ⟨.err (.statementFailed m), by simp [inspectSnapshot, hr, hrs, hm]⟩
      | none =>
        refine ⟨.err (.terminatedWithoutResult s), ?_⟩
        simp [inspectSnapshot, hr, hrs, hm, hterm, StatementHandle.status, hs]

/-- C2: for a handle whose snapshot status is terminal, fetch_once returns
immediately with zero transport calls and an unchanged snapshot, and fetch
resolves purely locally (zero polls, zero sleeps), returning a present
result set, else failing with a present message, else failing with a
terminated-without-result error. -/
theorem c2_terminal_short_circuit (h : StatementHandle)
    (hterm : h.terminalStatus = true) :
    (∀ resp : Response, fetch_once h resp = (h, none, 0))
    ∧ ∀ (transport : Nat → Response) (fuel : Nat),
        (fetch transport (fuel + 1) h).polls = 0
        ∧ (fetch transport (fuel + 1) h).sleeps = []
        ∧ (∀ rs : ResultSet, h.result_set = .ok (some rs) →
            (fetch transport (fuel + 1) h).result = .ok rs)
        ∧ (∀ (r : Response) (m : String), h.last_response = some r →
            h.result_set = .ok none → truthyStr r.message = some m →
            (fetch transport (fuel + 1) h).result = .err (.statementFailed m))
        ∧ (∀ (r : Response) (s : StatementStatus), h.last_response = some r →
            h.result_set = .ok none → truthyStr r.message = none →
            h.status = some s →
            (fetch transport (fuel + 1) h).result = .err (.terminatedWithoutResult s)) := by
  constructor
  · intro resp
    simp [fetch_once, hterm]
  · intro transport fuel
    obtain ⟨res, hres⟩ := inspectSnapshot_terminal h hterm
    have hred : fetch transport (fuel + 1) h = ⟨res, [], 0, h⟩ := by
      simp [fetch, fetchLoop, hres]
    refine ⟨by rw [hred], by rw [hred], ?_, ?_, ?_⟩
    · intro rs hrs
      obtain ⟨r, s, hr, _, _⟩ := terminal_last_response h hterm
      have : inspectSnapshot h = some (.ok rs) := by
        simp [inspectSnapshot, hr, hrs]
      rw [hred]
      rw [this] at hres
      simp only [Option.some.injEq] at hres
      rw [← hres]
    · intro r m hr hrsnone hm
      have : inspectSnapshot h = some (.err (.statementFailed m)) := by
        simp [inspectSnapshot, hr, hrsnone, hm]
      rw [hred]
      rw [this] at hres
      simp only [Option.some.injEq] at hres
      rw [← hres]
    · intro r s hr hrsnone hm hs
      have : inspectSnapshot h = some (.err (.terminatedWithoutResult s)) := by
        simp [inspectSnapshot, hr, hrsnone, hm, hterm, hs]
      rw [hred]
      rw [this] at hres
      simp only [Option.some.injEq] at hres
      rw [← hres]

/-- A failed snapshot carrying a message, as a terminal fixture. -/
def failedResponse : Response := ⟨some .failed, some "boom", none, none⟩

def failedHandle : StatementHandle := ⟨"stmt-2", "json", some failedResponse⟩

theorem c2_terminal_short_circuit_witness :
    fetch_once failedHandle runningResponse = (failedHandle, none, 0)
    ∧ (fetch (fun _ => runningResponse) 1 failedHandle).polls = 0
    ∧ (fetch (fun _ => runningResponse) 1 failedHandle).result =
        .err (.statementFailed "boom") := by
  have h := c2_terminal_short_circuit failedHandle rfl
  refine ⟨h.1 runningResponse, (h.2 (fun _ => runningResponse) 0).1, ?_⟩
  exact (h.2 (fun _ => runningResponse) 0).2.2.2.1 failedResponse "boom" rfl rfl rfl

/-- C3: on a non-terminal handle, a poll whose response carries a truthy
message fails with a statement-failed error carrying that message verbatim,
after the snapshot has been replaced by the full response (one transport
call); the updated handle reports the response's status. -/
theorem c3_statement_failed (h : StatementHandle) (resp : Response) (m : String)
    (hterm : h.terminalStatus = false)
    (hm : truthyStr resp.message = some m) :
    fetch_once h resp =
      ({ h with last_response := some resp }, some (.statementFailed m), 1)
    ∧ StatementHandle.status { h with last_response := some resp } = resp.status := by
  constructor
  · simp [fetch_once, hterm, hm]
  · rfl

theorem c3_statement_failed_witness :
    fetch_once freshHandle failedResponse =
      ({ freshHandle with last_response := some failedResponse },
        some (.statementFailed "boom"), 1)
    ∧ StatementHandle.status { freshHandle with last_response := some failedResponse } =
        some .failed := by
  have h := c3_statement_failed freshHandle failedResponse "boom" rfl rfl
  exact ⟨h.1, h.2⟩

/-- C4: cancel on a handle whose snapshot status is terminal returns that
status, performs zero transport calls and leaves the handle unchanged. -/
theorem c4_cancel_terminal_noop (h : StatementHandle) (resp : CancelResponse)
    (s : StatementStatus) (hs : h.status = some s) (hterm : s.is_terminated = true) :
    cancel h resp = (h, s, 0) := by
  unfold cancel
  rw [hs]
  simp [hterm]

theorem c4_cancel_terminal_noop_witness :
    cancel failedHandle ⟨.cancelled, none⟩ = (failedHandle, .failed, 0) :=
  c4_cancel_terminal_noop failedHandle ⟨.cancelled, none⟩ .failed rfl rfl

/-- C5: cancel on a non-terminal handle with an existing snapshot issues one
transport call, returns the cancel response's status, and applies only that
status (and the message, when the key is present) onto the prior snapshot:
progress and result_set are exactly those of the prior snapshot. -/
theorem c5_cancel_partial_update (h : StatementHandle) (resp : CancelResponse)
    (r : Response) (hterm : h.terminalStatus = false)
    (hr : h.last_response = some r) :
    (cancel h resp).2.1 = resp.status
    ∧ (cancel h resp).2.2 = 1
    ∧ (cancel h resp).1.last_response =
        some { r with
               status := some resp.status
               message := match resp.message with | some m => some m | none => r.message }
    ∧ (cancel h resp).1.progress = r.progress
    ∧ ∀ r2 : Response, (cancel h resp).1.last_response = some r2 →
        r2.progress = r.progress ∧ r2.result_set = r.result_set := by
  have hred : cancel h resp = cancelNonTerminal h resp := by
    unfold cancel
    cases hs : h.status with
    | none => rfl
    | some s =>
      have : s.is_terminated = false := by
        simpa [StatementHandle.terminalStatus, hs] using hterm
      simp [this]
  rw [hred]
  refine ⟨rfl, rfl, ?_, ?_, ?_⟩
  · simp [cancelNonTerminal, hr]
  · simp [cancelNonTerminal, hr, StatementHandle.progress]
  · intro r2 hr2
    simp only [cancelNonTerminal, hr, Option.some.injEq] at hr2
    subst hr2
    exact ⟨rfl, rfl⟩

def runningHandle : StatementHandle := ⟨"stmt-3", "json", some runningResponse⟩

theorem c5_cancel_partial_update_witness :
    (cancel runningHandle ⟨.cancelled, some "bye"⟩).2.1 = .cancelled
    ∧ (cancel runningHandle ⟨.cancelled, some "bye"⟩).2.2 = 1
    ∧ (cancel runningHandle ⟨.cancelled, some "bye"⟩).1.last_response =
        some ⟨some .cancelled, some "bye", none, none⟩ := by
  have h := c5_cancel_partial_update runningHandle ⟨.cancelled, some "bye"⟩
    runningResponse rfl rfl
  exact ⟨h.1, h.2.1, h.2.2.1⟩

/-! ### Row decoding -/

lemma decodeRowsC_append_err (schema : List FieldSchema) :
    ∀ (pre rows2 : List (List (Option String))) (v : List (List Value)) (n : Nat)
      (e : SDKError),
      decodeRowsC schema pre = (.ok v, n) →
      (decodeRowsC schema rows2).1 = .error e →
      (decodeRowsC schema (pre ++ rows2)).1 = .error e := by
  intro pre
  induction pre with
  | nil =>
    intro rows2 v n e _ h2
    simpa using h2
  | cons row pre ih =>
    intro rows2 v n e h1 h2
    simp only [decodeRowsC, List.cons_append] at h1 ⊢
    by_cases hlen : row.length = schema.length
    · rw [if_pos hlen] at h1 ⊢
      rcases hrow : decodeRowC schema row with ⟨r1, cnt1⟩
      rw [hrow] at h1
      cases r1 with
      | error e1 => simp at h1
      | ok vals =>
        rcases hpre : decodeRowsC schema pre with ⟨r2, cnt2⟩
        rw [hpre] at h1
        cases r2 with
        | error e2 => simp at h1
        | ok valss =>
          have hrec := ih rows2 valss cnt2 e hpre h2
          rcases happ : decodeRowsC schema (pre ++ rows2) with ⟨r3, cnt3⟩
          rw [happ] at hrec
          simp only at hrec
          subst hrec
          simp
    · rw [if_neg hlen] at h1
      simp at h1

/-- C6: when some row's cell count differs from the schema's column count
and every preceding row decodes successfully, to_values fails with the
schema-mismatch error, and the ResultSet (in particular its memoized row
cache) is left unchanged. -/
theorem c6_schema_mismatch (rs : ResultSet) (pre : List (List (Option String)))
    (bad : List (Option String)) (rest : List (List (Option String)))
    (v : List (List Value)) (n : Nat)
    (h1 : rs.parsed_rows = none) (h2 : rs.format = "json")
    (h3 : rs.rows_raw = pre ++ bad :: rest)
    (h4 : decodeRowsC rs.metadata.fields pre = (.ok v, n))
    (h5 : bad.length ≠ rs.metadata.fields.length) :
    (rs.to_values).1 = .error (.valueError "Schema length does not match record length")
    ∧ (rs.to_values).2.1 = rs
    ∧ (rs.to_values).2.1.parsed_rows = none := by
  have hbad : (decodeRowsC rs.metadata.fields (bad :: rest)).1 =
      .error (.valueError "Schema length does not match record length") := by
    simp only [decodeRowsC]
    rw [if_neg h5]
  have herr := decodeRowsC_append_err rs.metadata.fields pre (bad :: rest) v n _ h4 hbad
  rcases hdec : decodeRowsC rs.metadata.fields (pre ++ bad :: rest) with ⟨r, cnt⟩
  rw [hdec] at herr
  simp only at herr
  subst herr
  have hval : rs.to_values =
      (.error (.valueError "Schema length does not match record length"), rs, cnt) := by
    simp only [ResultSet.to_values, h1, h2, if_true, h3, hdec]
  rw [hval]
  exact ⟨rfl, rfl, h1⟩

/-- A two-column string schema with a conforming first row and a
three-cell second row. -/
def mismatchRS : ResultSet :=
  ⟨⟨[⟨"a", .string⟩, ⟨"b", .string⟩], 2⟩, "json",
    [[some "x", some "y"], [some "1", some "2", some "3"]], none⟩

theorem c6_schema_mismatch_witness :
    (mismatchRS.to_values).1 =
      .error (.valueError "Schema length does not match record length")
    ∧ (mismatchRS.to_values).2.1.parsed_rows = none := by
  have h := c6_schema_mismatch mismatchRS [[some "x", some "y"]]
    [some "1", some "2", some "3"] [] [[.vstr "x", .vstr "y"]] 2
    rfl rfl rfl rfl (by decide)
  exact ⟨h.1, h.2.2⟩

/-- C7: a null wire cell decodes to the absent value for every DataType,
never to a type-specific default and never to an error. -/
theorem c7_null_preservation :
    ∀ typ : DataType, convert_value none typ = .ok .vnull :=
  fun _ => rfl

theorem c7_null_preservation_witness :
    convert_value none DataType.timestamp = .ok .vnull :=
  c7_null_preservation DataType.timestamp

/-- C8: a non-null timestamp cell never fails the decode: when the
(Z-normalized) text parses it yields the parsed timestamp, otherwise the raw
string passes through unmodified; a nine-digit (nanosecond) fractional
component parses to a timestamp value, not to the fallback string. -/
theorem c8_timestamp_decoding :
    (∀ v : String, ∃ val, convert_value (some v) .timestamp = .ok val)
    ∧ (∀ v : String, pythonFromisoformat (pyReplaceZ v) = none →
        convert_value (some v) .timestamp = .ok (.vstr v))
    ∧ (∀ (v : String) (t : Timestamp), pythonFromisoformat (pyReplaceZ v) = some t →
        convert_value (some v) .timestamp = .ok (.vtimestamp t))
    ∧ convert_value (some "2024-01-02T03:04:05.123456789Z") .timestamp =
        .ok (.vtimestamp ⟨2024, 1, 2, 3, 4, 5, 123456, some 0⟩) := by
  refine ⟨?_, ?_, ?_, ?_⟩
  · intro v
    simp only [convert_value]
    cases pythonFromisoformat (pyReplaceZ v) with
    | some t => exact ⟨.vtimestamp t, rfl⟩
    | none => exact ⟨.vstr v, rfl⟩
  · intro v hv
    simp [convert_value, hv]
  · intro v t hv
    simp [convert_value, hv]
  · rfl

theorem c8_timestamp_decoding_witness :
    convert_value (some "not-a-timestamp") .timestamp = .ok (.vstr "not-a-timestamp") :=
  c8_timestamp_decoding.2.1 "not-a-timestamp" rfl

/-- C9: decoding is idempotent and memoized: after a successful to_values,
calling to_values again returns the identical value and the identical
ResultSet and performs zero cell conversions (pure cache hit). -/
theorem c9_idempotent_decode (rs : ResultSet) (v : List (List Value))
    (rs2 : ResultSet) (n : Nat)
    (h1 : rs.to_values = (.ok v, rs2, n)) :
    rs2.to_values = (.ok v, rs2, 0) := by
  unfold ResultSet.to_values at h1
  cases hp : rs.parsed_rows with
  | some v0 =>
    rw [hp] at h1
    simp only [Prod.mk.injEq, Except.ok.injEq] at h1
    obtain ⟨hv, hrs2, -⟩ := h1
    subst hrs2
    subst hv
    simp [ResultSet.to_values, hp]
  | none =>
    rw [hp] at h1
    by_cases hf : rs.format = "json"
    · rw [if_pos hf] at h1
      rcases hdec : decodeRowsC rs.metadata.fields rs.rows_raw with ⟨r, cnt⟩
      rw [hdec] at h1
      cases r with
      | error e => simp at h1
      | ok v2 =>
        simp only [Prod.mk.injEq, Except.ok.injEq] at h1
        obtain ⟨hv, hrs2, -⟩ := h1
        subst hv
        subst hrs2
        simp [ResultSet.to_values]
    · rw [if_neg hf] at h1
      simp at h1

def intRS : ResultSet := ⟨⟨[⟨"a", .int⟩], 1⟩, "json", [[some "1"]], none⟩

theorem c9_idempotent_decode_witness :
    ResultSet.to_values { intRS with parsed_rows := some [[.vint 1]] } =
      (.ok [[.vint 1]], { intRS with parsed_rows := some [[.vint 1]] }, 0) := by
  have h := c9_idempotent_decode intRS [[.vint 1]]
    { intRS with parsed_rows := some [[.vint 1]] } 1 rfl
  exact h

/-! ### Schema building from wire metadata -/

lemma buildFields_length :
    ∀ (fs : List RawField) (v : List FieldSchema),
      buildFields fs = .ok v → v.length ≤ fs.length := by
  intro fs
  induction fs with
  | nil =>
    intro v h
    simp only [buildFields, Except.ok.injEq] at h
    subst h
    simp
  | cons f rest ih =>
    intro v h
    simp only [buildFields] at h
    cases hn : truthyStr f.name with
    | none =>
      rw [hn] at h
      exact (ih v h).trans (by simp)
    | some nm =>
      rw [hn] at h
      cases hp : probeDataType f with
      | none =>
        rw [hp] at h
        exact (ih v h).trans (by simp)
      | some d =>
        rw [hp] at h
        simp only at h
        cases hdt : DataType.ofString d with
        | none => rw [hdt] at h; simp at h
        | some dt =>
          rw [hdt] at h
          rcases hrest : buildFields rest with e | fields
          · rw [hrest] at h; simp at h
          · rw [hrest] at h
            simp only [Except.ok.injEq] at h
            subst h
            simpa using Nat.succ_le_succ (ih fields hrest)

lemma to_values_first_row_mismatch (rs : ResultSet) (row : List (Option String))
    (rest2 : List (List (Option String)))
    (h1 : rs.parsed_rows = none) (h2 : rs.format = "json")
    (h3 : rs.rows_raw = row :: rest2) (h4 : row.length ≠ rs.metadata.fields.length) :
    (rs.to_values).1 =
      .error (.valueError "Schema length does not match record length") := by
  simp only [ResultSet.to_values, h1, h2, if_true, h3]
  have hdec : decodeRowsC rs.metadata.fields (row :: rest2) =
      (.error (.valueError "Schema length does not match record length"), 0) := by
    simp only [decodeRowsC]
    rw [if_neg h4]
  rw [hdec]

/-- C10: building a ResultSet from a payload silently omits every metadata
field entry whose name is untruthy or whose data-type (probed in the order
data_Type, data_type, dataType) resolves to no truthy string; the decoded
schema can therefore be shorter than the payload declares, and row decoding
checks each row's length against this reduced column count. -/
theorem c10_field_omission :
    (∀ (f : RawField) (rest : List RawField),
        truthyStr f.name = none ∨ probeDataType f = none →
        buildFields (f :: rest) = buildFields rest)
    ∧ (∀ (f : RawField) (d : String),
        truthyStr f.data_Type = some d → probeDataType f = some d)
    ∧ (∀ (f : RawField) (d : String), truthyStr f.data_Type = none →
        truthyStr f.data_type = some d → probeDataType f = some d)
    ∧ (∀ f : RawField, truthyStr f.data_Type = none → truthyStr f.data_type = none →
        probeDataType f = truthyStr f.dataType)
    ∧ (∀ (fs : List RawField) (v : List FieldSchema),
        buildFields fs = .ok v → v.length ≤ fs.length)
    ∧ (∀ (h : StatementHandle) (r : Response) (rsData : RawResultSet) (rs : ResultSet),
        h.last_response = some r → r.result_set = some rsData →
        h.result_set = .ok (some rs) →
        buildFields (rawFields rsData) = .ok rs.metadata.fields
        ∧ ∀ (row : List (Option String)) (rest2 : List (List (Option String))),
            rs.rows_raw = row :: rest2 → row.length ≠ rs.metadata.fields.length →
            (rs.to_values).1 =
              .error (.valueError "Schema length does not match record length")) := by
  refine ⟨?_, ?_, ?_, ?_, buildFields_length, ?_⟩
  · intro f rest hcase
    rcases hcase with hn | hp
    · simp [buildFields, hn]
    · cases hn : truthyStr f.name with
      | none => simp [buildFields, hn]
      | some nm => simp [buildFields, hn, hp]
  · intro f d hd
    simp [probeDataType, hd]
  · intro f d hd1 hd2
    simp [probeDataType, hd1, hd2]
  · intro f hd1 hd2
    simp [probeDataType, hd1, hd2]
  · intro h r rsData rs hr hrs hok
    simp only [StatementHandle.result_set, hr, hrs] at hok
    rcases hbf : buildFields (rawFields rsData) with e | fields
    · rw [hbf] at hok; simp at hok
    · rw [hbf] at hok
      simp only at hok
      by_cases hfmt : rsData.format.getD h.format = "json"
      · rw [if_pos hfmt] at hok
        simp only [Except.ok.injEq, Option.some.injEq] at hok
        subst hok
        refine ⟨rfl, ?_⟩
        intro row rest2 hrows hlen
        exact to_values_first_row_mismatch _ row rest2 rfl hfmt hrows hlen
      · rw [if_neg hfmt] at hok
        simp at hok

def c10RawFieldKept : RawField := ⟨some "a", some "int", none, none⟩

/-- A field entry whose data_Type key is absent and whose data_type and
dataType keys hold empty strings: omitted from the schema. -/
def c10RawFieldDropped : RawField := ⟨some "b", none, some "", some ""⟩

def c10Payload : RawResultSet :=
  ⟨some ⟨some [c10RawFieldKept, c10RawFieldDropped], some 1⟩, some "json",
    some [[some "1", some "2"]]⟩

def c10Response : Response := ⟨some .finished, none, none, some c10Payload⟩

def c10Handle : StatementHandle := ⟨"stmt-4", "json", some c10Response⟩

/-- The ResultSet c10Handle.result_set builds: one column where the payload
declared two, and a two-cell raw row. -/
def c10RS : ResultSet := ⟨⟨[⟨"a", .int⟩], 1⟩, "json", [[some "1", some "2"]], none⟩

theorem c10_field_omission_witness :
    buildFields [c10RawFieldDropped] = .ok []
    ∧ buildFields (rawFields c10Payload) = .ok [⟨"a", .int⟩]
    ∧ (c10RS.to_values).1 =
        .error (.valueError "Schema length does not match record length") := by
  have homit := c10_field_omission.1 c10RawFieldDropped [] (Or.inr rfl)
  have hmain := c10_field_omission.2.2.2.2.2 c10Handle c10Response c10Payload c10RS
    rfl rfl rfl
  refine ⟨homit.trans rfl, hmain.1, ?_⟩
  exact hmain.2 [some "1", some "2"] [] rfl (by decide)

end ScopeDB
